import Mathlib

/-!
Shallow embedding of `src/profile_code_reuse_profile.py`, a Bedrock
inference-profile benchmarking script.  Python dict/list/string response
structures are embedded as the JSON-like type `JVal`; Python operations that
can raise (`k in v`, `v[k]`, iteration, `.get`) return `Except String _`,
with the error string naming the Python exception class.  The two remote
boto3 calls (`bedrock.create_inference_profile` and
`bedrock_runtime.converse`) are opaque RPC boundaries: each is embedded as
an `Except String JVal` oracle value (error = the call raised, ok = the
structured response it returned).  `print` and `time.sleep` side effects are
recorded as an explicit event trace where the claims need them.
-/

/-- A Python value as it appears in boto3 response structures: strings,
numbers, booleans, None, lists and string-keyed dicts. -/
inductive JVal where
  | str : String → JVal
  | num : Int → JVal
  | bool : Bool → JVal
  | null : JVal
  | arr : List JVal → JVal
  | obj : List (String × JVal) → JVal
deriving BEq

/-- First value bound to key `k` in an association list (Python dict lookup). -/
def lookupKey : List (String × JVal) → String → Option JVal
  | [], _ => none
  | (k2, v) :: rest, k => if k2 == k then some v else lookupKey rest k

/-- `k` occurs as a contiguous substring of `s` (Python `k in s` on strings). -/
def strContainsSub (s k : String) : Bool :=
  (List.range (s.data.length + 1)).any (fun i => k.data.isPrefixOf (s.data.drop i))

/-- Python `k in v` for a string `k`: key membership on dicts, element
membership on lists, substring test on strings; `TypeError` otherwise. -/
def py_contains (v : JVal) (k : String) : Except String Bool :=
  match v with
  | .obj kvs => .ok (kvs.any (fun p => p.1 == k))
  | .arr xs => .ok (xs.any (fun x => x == JVal.str k))
  | .str s => .ok (strContainsSub s k)
  | _ => .error "TypeError: argument of type is not iterable"

/-- Python `v[k]` for a string `k`: dict lookup (`KeyError` when absent);
`TypeError` on lists, strings and scalars. -/
def py_index (v : JVal) (k : String) : Except String JVal :=
  match v with
  | .obj kvs =>
    match lookupKey kvs k with
    | some r => .ok r
    | none => .error "KeyError"
  | _ => .error "TypeError: indices must not be str"

/-- Python `v.get(k, dflt)`: defined on dicts only (`AttributeError` on
anything else). -/
def pyGet (v : JVal) (k : String) (dflt : JVal) : Except String JVal :=
  match v with
  | .obj kvs => .ok ((lookupKey kvs k).getD dflt)
  | _ => .error "AttributeError: object has no attribute get"

/-- Python `for x in v`: lists yield their elements, dicts their keys,
strings their one-character substrings; `TypeError` on scalars. -/
def pyIter : JVal → Except String (List JVal)
  | .arr xs => .ok xs
  | .obj kvs => .ok (kvs.map (fun p => JVal.str p.1))
  | .str s => .ok (s.data.map (fun c => JVal.str (String.mk [c])))
  | _ => .error "TypeError: object is not iterable"

/-- The `for content in message[...]` loop body of `parse_converse_response`
(source lines 18-20): return `content.get(..., ...)` for the first element
containing the key `text`, fall through (`none`) when no element does. -/
def findText : List JVal → Except String (Option JVal)
  | [] => .ok none
  | c :: rest =>
    match py_contains c "text" with
    | .error e => .error e
    | .ok true =>
      match pyGet c "text" (JVal.str "") with
      | .error e => .error e
      | .ok v => .ok (some v)
    | .ok false => findText rest

/-- `parse_converse_response` (source lines 13-21), with Python exceptions
made explicit in the `Except` layer.  The `and` of line 15 short-circuits,
which the nesting of matches reproduces. -/
def parse_converse_response (response : JVal) : Except String JVal :=
  match py_contains response "output" with
  | .error e => .error e
  | .ok false => .ok (JVal.str "No text response found")
  | .ok true =>
    match py_index response "output" with
    | .error e => .error e
    | .ok output =>
      match py_contains output "message" with
      | .error e => .error e
      | .ok false => .ok (JVal.str "No text response found")
      | .ok true =>
        match py_index output "message" with
        | .error e => .error e
        | .ok message =>
          match py_contains message "content" with
          | .error e => .error e
          | .ok false => .ok (JVal.str "No text response found")
          | .ok true =>
            match py_index message "content" with
            | .error e => .error e
            | .ok contentVal =>
              match pyIter contentVal with
              | .error e => .error e
              | .ok items =>
                match findText items with
                | .error e => .error e
                | .ok (some v) => .ok v
                | .ok none => .ok (JVal.str "No text response found")

/-- Python slicing `v[:50]` is defined on strings and lists; on scalars and
dicts it raises `TypeError`.  Used by the debug print in `converse`
(source line 50). -/
def sliceable : JVal → Bool
  | .str _ => true
  | .arr _ => true
  | _ => false

/-- `converse` (source lines 41-54).  `rpc` is the outcome of the remote
`bedrock_runtime.converse(modelId, messages, inferenceConfig)` call:
`.error` when that call raised, `.ok response` otherwise.  The whole body is
a `try` block whose `except` returns `None`, so every raise inside it - from
the remote call, from `parse_converse_response`, or from slicing a
non-sliceable parsed value in the print on line 50 - becomes `none`;
otherwise the raw response is returned. -/
def converse (rpc : Except String JVal) : Option JVal :=
  match rpc with
  | .error _e => none
  | .ok response =>
    match parse_converse_response response with
    | .error _e => none
    | .ok parsed => if sliceable parsed then some response else none

/-- `create_inference_profile` (source lines 23-39).  `hasMethod` embeds the
`hasattr(bedrock, ...)` probe on line 26; `rpc` is the outcome of the remote
`bedrock.create_inference_profile(...)` call.  The `except` clause prints
and re-raises, so every raise escapes; the success print on line 35 uses
`response.get(...)`, which itself raises on a non-dict response. -/
def create_inference_profile (hasMethod : Bool) (rpc : Except String JVal) :
    Except String JVal :=
  if hasMethod = false then
    .error "create_inference_profile method not available. Please update boto3"
  else
    match rpc with
    | .error e => .error e
    | .ok response =>
      match pyGet response "inferenceProfileArn" (JVal.str "Unknown") with
      | .error e => .error e
      | .ok _arn => .ok response

/-- `create_shared_profile` (source lines 56-64): provision once, then
extract `profile_response[...]` with a plain subscript, whose `KeyError`
(missing key) or `TypeError` (non-dict response) is not caught. -/
def create_shared_profile (hasMethod : Bool) (provRpc : Except String JVal) :
    Except String JVal :=
  match create_inference_profile hasMethod provRpc with
  | .error e => .error e
  | .ok profile_response => py_index profile_response "inferenceProfileArn"

/-- The fixed ordered prompt list of `run_test` (source lines 74-79). -/
def prompts : List String :=
  [ "Write a comprehensive technical documentation for deploying a multi-region, highly available microservices architecture on AWS.",
    "Analyze the current state of cloud computing in enterprise environments.",
    "Compare and contrast AWS container services: ECS, EKS, App Runner, Lambda, and Fargate.",
    "Design a real-time analytics platform for IoT devices at scale." ]

/-- Prompt selection of source line 81: `prompts[iteration % len(prompts)]`.
The index is always in bounds (`len(prompts) = 4 > 0`), so `getD` never
falls back to its default. -/
def selectPrompt (iteration : Nat) : String :=
  prompts.getD (iteration % prompts.length) ""

/-- The single-turn message list built on source line 82. -/
def mkMessages (prompt : String) : JVal :=
  JVal.arr [JVal.obj
    [("role", JVal.str "user"),
     ("content", JVal.arr [JVal.obj [("text", JVal.str prompt)]])]]

/-- Observable side effects of the run, in program order: `time.sleep(d)`
calls, the converse RPC issued with its message payload, and the periodic
progress report carrying the iteration number and the success count it
prints (the printed rate is `successful_runs/i`). -/
inductive Event where
  | sleep : Nat → Event
  | converseCall : Nat → JVal → Event
  | progress : Nat → Nat → Event

/-- `run_test` (source lines 66-85): select the prompt by index, build the
message, call `converse` once, then `time.sleep(1)` unconditionally, and
return the raw response (or `None`).  `rpc` is this iteration's remote
converse outcome. -/
def run_test (rpc : Except String JVal) (iteration : Nat) :
    Option JVal × List Event :=
  let prompt := selectPrompt iteration
  let messages := mkMessages prompt
  let response := converse rpc
  (response, [Event.converseCall iteration messages, Event.sleep 1])

/-- Python truthiness of a value: `None`, `False`, `0`, `""`, `[]` and `{}`
are falsy, everything else is truthy. -/
def py_truthy : JVal → Bool
  | .str s => !(s == "")
  | .num n => !(n == 0)
  | .bool b => b
  | .null => false
  | .arr xs => !xs.isEmpty
  | .obj kvs => !kvs.isEmpty

/-- Python truthiness of `converse`'s return value: `None` is falsy,
otherwise the truthiness of the returned response. -/
def py_truthy_opt : Option JVal → Bool
  | none => false
  | some v => py_truthy v

/-- The orchestrator counters of `main` (source lines 94-95) together with
the event trace accumulated so far. -/
structure RunState where
  successful_runs : Nat
  failed_runs : Nat
  events : List Event

/-- One pass of the `for i in range(1, num_iterations + 1)` body of `main`
(source lines 99-117) at iteration `i`, with loop bound `N` and progress
interval `K` (`50` and `5` in the source).  `oracle i` is the outcome of the
remote converse call of iteration `i`.  In the embedding `run_test` is
total, so the `except` branch of lines 108-110 is unreachable: line 103 is
`if response:`, so a response is classified success when truthy (`None`, but
also a falsy raw response such as `{}`, lands in the `else` failure branch).
Every `i % K == 0`
iteration appends a progress report, and every non-final iteration ends with
`time.sleep(2)`. -/
def loopBody (oracle : Nat → Except String JVal) (N K : Nat) (i : Nat)
    (st : RunState) : RunState :=
  let r := run_test (oracle i) i
  let st1 :=
    if py_truthy_opt r.1 then
      { st with successful_runs := st.successful_runs + 1,
                events := st.events ++ r.2 }
    else
      { st with failed_runs := st.failed_runs + 1,
                events := st.events ++ r.2 }
  let st2 :=
    if i % K == 0 then
      { st1 with events := st1.events ++ [Event.progress i st1.successful_runs] }
    else st1
  if i < N then { st2 with events := st2.events ++ [Event.sleep 2] } else st2

/-- Counters and trace before the first iteration (source lines 94-95). -/
def initState : RunState := ⟨0, 0, []⟩

/-- The first `n` iterations of the `main` loop, executed sequentially in
increasing index order (iterations are numbered `1..n`). -/
def runUpTo (oracle : Nat → Except String JVal) (N K : Nat) : Nat → RunState
  | 0 => initState
  | n + 1 => loopBody oracle N K (n + 1) (runUpTo oracle N K n)

/-- `num_iterations` (source line 98). -/
def num_iterations : Nat := 50

/-- `main` (source lines 87-129), named `mainRun` because Lean reserves `main`.  Provisioning (via `create_shared_profile`)
happens before any iteration; any raise there escapes `main` uncaught, so
the loop and the final summary are skipped entirely.  On success the loop
runs all `num_iterations` iterations and the final state (whose counters the
summary prints) is returned. -/
def mainRun (hasMethod : Bool) (provRpc : Except String JVal)
    (oracle : Nat → Except String JVal) : Except String RunState :=
  match create_shared_profile hasMethod provRpc with
  | .error e => .error e
  | .ok _shared_model_id => .ok (runUpTo oracle num_iterations 5 num_iterations)

/-- Modelled from the spec: the Response Extractor contract of section 4.1,
"produce its first available text fragment, or a defined sentinel if the
expected shape is absent at any nesting level", on well-shaped structures -
first text value among the content items. -/
def firstTextSpec : List JVal → Option JVal
  | [] => none
  | .obj kvs :: rest =>
    match lookupKey kvs "text" with
    | some v => some v
    | none => firstTextSpec rest
  | _ :: rest => firstTextSpec rest

/-- Modelled from the spec: the total extraction function of section 4.1 -
follow `output` / `message` / `content`, return the first text fragment,
and the sentinel whenever any expected field is absent. -/
def extractSpec (r : JVal) : JVal :=
  match r with
  | .obj kvs =>
    match lookupKey kvs "output" with
    | some (.obj okvs) =>
      match lookupKey okvs "message" with
      | some (.obj mkvs) =>
        match lookupKey mkvs "content" with
        | some (.arr xs) => (firstTextSpec xs).getD (JVal.str "No text response found")
        | some _ => JVal.str "No text response found"
        | none => JVal.str "No text response found"
      | some _ => JVal.str "No text response found"
      | none => JVal.str "No text response found"
    | some _ => JVal.str "No text response found"
    | none => JVal.str "No text response found"
  | _ => JVal.str "No text response found"

/-- A content item on which the loop body of lines 18-20 cannot raise:
a dict. -/
def contentItemOk : JVal → Bool
  | .obj _ => true
  | _ => false

/-- The probed path of the response is well-typed for the Python operations
applied to it: dicts along `output` / `message`, and `content` (when
present) a list of dicts.  Absent keys are allowed at every level. -/
def wellShaped (r : JVal) : Bool :=
  match r with
  | .obj kvs =>
    match lookupKey kvs "output" with
    | none => true
    | some (.obj okvs) =>
      match lookupKey okvs "message" with
      | none => true
      | some (.obj mkvs) =>
        match lookupKey mkvs "content" with
        | none => true
        | some (.arr xs) => xs.all contentItemOk
        | some _ => false
      | some _ => false
    | some _ => false
  | _ => false

/-- Progress-report events, as filtered out of a trace. -/
def isProgressEvent : Event → Bool
  | .progress _ _ => true
  | _ => false

/-- The iteration indices `[1, ..., n]` in execution order. -/
def idxs : Nat → List Nat
  | 0 => []
  | n + 1 => idxs n ++ [n + 1]

/-- A converse response of the expected shape, used as a concrete input. -/
def sampleResponse : JVal :=
  JVal.obj [("output", JVal.obj [("message", JVal.obj
    [("content", JVal.arr [JVal.obj [("text", JVal.str "hi")]])])])]

/-- An oracle whose remote converse call raises on every iteration. -/
def oracleErr : Nat → Except String JVal := fun _ => .error "throttled"

/-- An oracle whose remote converse call succeeds on every iteration. -/
def oracleOk : Nat → Except String JVal := fun _ => .ok sampleResponse

/-- An oracle whose remote converse call returns the empty dict `{}` on
every iteration: a successful call whose response is non-`None` but falsy. -/
def oracleEmptyDict : Nat → Except String JVal := fun _ => .ok (JVal.obj [])

/-- A truthy (nonempty) response without any of the expected fields: it
parses only to the sentinel text. -/
def noTextResponse : JVal := JVal.obj [("foo", JVal.num 1)]

theorem any_key_true_of_lookup (kvs : List (String × JVal)) (k : String)
    (v : JVal) (h : lookupKey kvs k = some v) :
    kvs.any (fun p => p.1 == k) = true := by
  induction kvs with
  | nil => simp [lookupKey] at h
  | cons p rest ih =>
    rcases p with ⟨k2, v2⟩
    rw [lookupKey] at h
    split at h
    · rename_i he
      simp [List.any_cons, he]
    · rename_i he
      simp [List.any_cons, ih h]

theorem any_key_false_of_lookup (kvs : List (String × JVal)) (k : String)
    (h : lookupKey kvs k = none) :
    kvs.any (fun p => p.1 == k) = false := by
  induction kvs with
  | nil => simp
  | cons p rest ih =>
    rcases p with ⟨k2, v2⟩
    rw [lookupKey] at h
    split at h
    · exact absurd h (by simp)
    · rename_i he
      simp [List.any_cons, he, ih h]

theorem loopBody_counters (oracle : Nat → Except String JVal) (N K i : Nat)
    (st : RunState) :
    (loopBody oracle N K i st).successful_runs
        = (if py_truthy_opt (converse (oracle i)) then st.successful_runs + 1
           else st.successful_runs)
      ∧ (loopBody oracle N K i st).failed_runs
        = (if py_truthy_opt (converse (oracle i)) then st.failed_runs
           else st.failed_runs + 1) := by
  unfold loopBody run_test
  by_cases hs : py_truthy_opt (converse (oracle i)) = true <;>
    by_cases hk : (i % K == 0) = true <;>
    by_cases hn : i < N <;>
    simp [hs, hk, hn]

theorem loopBody_events (oracle : Nat → Except String JVal) (N K i : Nat)
    (st : RunState) :
    (loopBody oracle N K i st).events
      = st.events
          ++ [Event.converseCall i (mkMessages (selectPrompt i)), Event.sleep 1]
          ++ (if i % K == 0
              then [Event.progress i ((loopBody oracle N K i st).successful_runs)]
              else [])
          ++ (if i < N then [Event.sleep 2] else []) := by
  unfold loopBody run_test
  by_cases hs : py_truthy_opt (converse (oracle i)) = true <;>
    by_cases hk : (i % K == 0) = true <;>
    by_cases hn : i < N <;>
    simp [hs, hk, hn]

theorem runUpTo_sum (oracle : Nat → Except String JVal) (N K : Nat) :
    ∀ n, (runUpTo oracle N K n).successful_runs
          + (runUpTo oracle N K n).failed_runs = n := by
  intro n
  induction n with
  | zero => rfl
  | succ n ih =>
    have h := loopBody_counters oracle N K (n + 1) (runUpTo oracle N K n)
    rw [runUpTo, h.1, h.2]
    by_cases hs : py_truthy_opt (converse (oracle (n + 1))) = true <;>
      simp [hs] <;> omega

theorem findText_of_allObj (xs : List JVal) (h : xs.all contentItemOk = true) :
    findText xs = .ok (firstTextSpec xs) := by
  induction xs with
  | nil => rfl
  | cons c rest ih =>
    rw [List.all_cons, Bool.and_eq_true] at h
    cases c with
    | obj kvs =>
      cases hl : lookupKey kvs "text" with
      | none =>
        rw [findText, py_contains, any_key_false_of_lookup kvs "text" hl]
        rw [firstTextSpec, hl]
        exact ih h.2
      | some v =>
        rw [findText, py_contains, any_key_true_of_lookup kvs "text" v hl]
        rw [firstTextSpec, hl]
        simp [pyGet, hl]
    | str s => simp [contentItemOk] at h
    | num n => simp [contentItemOk] at h
    | bool b => simp [contentItemOk] at h
    | null => simp [contentItemOk] at h
    | arr ys => simp [contentItemOk] at h

theorem runUpTo_progress (oracle : Nat → Except String JVal) (N K : Nat) :
    ∀ n, (runUpTo oracle N K n).events.filter isProgressEvent
      = ((idxs n).filter (fun i => i % K == 0)).map
          (fun i => Event.progress i (runUpTo oracle N K i).successful_runs) := by
  intro n
  induction n with
  | zero => rfl
  | succ n ih =>
    have he := loopBody_events oracle N K (n + 1) (runUpTo oracle N K n)
    rw [runUpTo, he, idxs]
    rw [List.filter_append, List.filter_append, List.filter_append,
        List.filter_append, List.map_append]
    rw [ih]
    by_cases hk : ((n + 1) % K == 0) = true <;>
      simp [hk, isProgressEvent, runUpTo]

/-- C1: any error raised by the remote converse call is caught inside
`converse` and converted into the non-success outcome `None`; it never
propagates, the iteration is counted as a failure (not a success), and the
benchmark loop still attempts all `N` iterations. -/
theorem C1_converse_error_isolated (oracle : Nat → Except String JVal)
    (N K n : Nat) (e : String) (h : oracle (n + 1) = .error e) :
    converse (oracle (n + 1)) = none
      ∧ (runUpTo oracle N K (n + 1)).failed_runs
          = (runUpTo oracle N K n).failed_runs + 1
      ∧ (runUpTo oracle N K (n + 1)).successful_runs
          = (runUpTo oracle N K n).successful_runs
      ∧ (runUpTo oracle N K N).successful_runs
          + (runUpTo oracle N K N).failed_runs = N := by
  have hc : converse (oracle (n + 1)) = none := by rw [h]; rfl
  have hcount := loopBody_counters oracle N K (n + 1) (runUpTo oracle N K n)
  refine ⟨hc, ?_, ?_, runUpTo_sum oracle N K N⟩
  · rw [runUpTo, hcount.2, hc]
    simp [py_truthy_opt]
  · rw [runUpTo, hcount.1, hc]
    simp [py_truthy_opt]

/-- Witness for C1 at a concrete always-raising oracle. -/
theorem C1_converse_error_isolated_witness :
    converse (oracleErr 1) = none
      ∧ (runUpTo oracleErr 3 5 1).failed_runs
          = (runUpTo oracleErr 3 5 0).failed_runs + 1
      ∧ (runUpTo oracleErr 3 5 1).successful_runs
          = (runUpTo oracleErr 3 5 0).successful_runs
      ∧ (runUpTo oracleErr 3 5 3).successful_runs
          + (runUpTo oracleErr 3 5 3).failed_runs = 3 :=
  C1_converse_error_isolated oracleErr 3 5 0 "throttled" rfl

/-- C2: if provisioning raises, the error escapes `mainRun` unchanged and
terminates the run: the result is the abort path, never the `.ok` state in
which the iterations ran and the summary is emitted. -/
theorem C2_provisioning_failure_fatal (e : String)
    (oracle : Nat → Except String JVal) (st : RunState) :
    mainRun true (.error e) oracle = .error e
      ∧ mainRun true (.error e) oracle ≠ .ok st := by
  have h1 : mainRun true (Except.error e) oracle = Except.error e := rfl
  refine ⟨h1, fun hcon => ?_⟩
  rw [h1] at hcon
  exact Except.noConfusion hcon

/-- C3: after every completed iteration `n` the success and failure counters
partition the iterations attempted so far, and at run end (the source's 50
iterations, interval 5) they sum to the configured iteration count. -/
theorem C3_counters_partition (oracle : Nat → Except String JVal)
    (N K n : Nat) :
    (runUpTo oracle N K n).successful_runs
        + (runUpTo oracle N K n).failed_runs = n
      ∧ (runUpTo oracle num_iterations 5 num_iterations).successful_runs
          + (runUpTo oracle num_iterations 5 num_iterations).failed_runs
          = num_iterations :=
  ⟨runUpTo_sum oracle N K n, runUpTo_sum oracle num_iterations 5 num_iterations⟩

/-- C4 counterexample: the extractor is not total over malformed structures.
On `{"output": 5}` the second conjunct of line 15 evaluates
`"message" in 5`, which raises `TypeError` in Python instead of returning
the sentinel. -/
theorem C4_extractor_total_counterexample :
    parse_converse_response (JVal.obj [("output", JVal.num 5)])
      = .error "TypeError: argument of type is not iterable" := rfl

/-- C4 (amended): on every structure whose probed path is well-typed for the
Python operations applied to it (dicts along `output`/`message`, `content` a
list of dicts when present - fields may be absent at any level), the
extractor never raises and returns exactly the first text fragment, or the
sentinel `"No text response found"` when none exists. -/
theorem C4_extractor_total_on_wellShaped (r : JVal)
    (h : wellShaped r = true) :
    parse_converse_response r = .ok (extractSpec r) := by
  cases r with
  | obj kvs =>
    simp only [wellShaped] at h
    simp only [parse_converse_response, py_contains, extractSpec]
    cases h0 : lookupKey kvs "output" with
    | none =>
      simp only [any_key_false_of_lookup kvs "output" h0, h0]
    | some out =>
      simp only [h0] at h
      simp only [any_key_true_of_lookup kvs "output" out h0, h0, py_index]
      cases out with
      | obj okvs =>
        simp only [py_contains]
        cases h1 : lookupKey okvs "message" with
        | none =>
          simp only [any_key_false_of_lookup okvs "message" h1, h1]
        | some msg =>
          simp only [h1] at h
          simp only [any_key_true_of_lookup okvs "message" msg h1, h1, py_index]
          cases msg with
          | obj mkvs =>
            simp only [py_contains]
            cases h2 : lookupKey mkvs "content" with
            | none =>
              simp only [any_key_false_of_lookup mkvs "content" h2, h2]
            | some cv =>
              simp only [h2] at h
              simp only [any_key_true_of_lookup mkvs "content" cv h2, h2,
                py_index]
              cases cv with
              | arr xs =>
                simp only [pyIter, findText_of_allObj xs h]
                cases hf : firstTextSpec xs <;> simp [hf]
              | obj o => simp at h
              | str s => simp at h
              | num n => simp at h
              | bool b => simp at h
              | null => simp at h
          | arr ys2 => simp at h
          | str s => simp at h
          | num n => simp at h
          | bool b => simp at h
          | null => simp at h
      | str s => simp at h
      | num n => simp at h
      | bool b => simp at h
      | null => simp at h
      | arr ys => simp at h
  | str s => simp [wellShaped] at h
  | num n => simp [wellShaped] at h
  | bool b => simp [wellShaped] at h
  | null => simp [wellShaped] at h
  | arr ys => simp [wellShaped] at h

/-- Witness for the amended C4 at a concrete well-shaped response. -/
theorem C4_extractor_total_on_wellShaped_witness :
    wellShaped sampleResponse = true
      ∧ parse_converse_response sampleResponse = .ok (extractSpec sampleResponse) :=
  ⟨rfl, C4_extractor_total_on_wellShaped sampleResponse rfl⟩

/-- C5: the progress reports in the trace of the first `n` iterations are
exactly those of the iterations `i ∈ {K, 2K, ...}` with `i ≤ n`, in order,
and the report of iteration `i` carries the success count as of iteration
`i` (the printed rate is that count divided by `i`). -/
theorem C5_progress_schedule (oracle : Nat → Except String JVal)
    (N K n : Nat) :
    (runUpTo oracle N K n).events.filter isProgressEvent
      = ((idxs n).filter (fun i => i % K == 0)).map
          (fun i => Event.progress i (runUpTo oracle N K i).successful_runs) :=
  runUpTo_progress oracle N K n

/-- C6: prompt selection is the pure function
`prompts[index % len(prompts)]`, hence periodic with period `len(prompts)`. -/
theorem C6_prompt_selection_periodic (index : Nat) :
    selectPrompt index = prompts.getD (index % prompts.length) ""
      ∧ selectPrompt (index + prompts.length) = selectPrompt index := by
  refine ⟨rfl, ?_⟩
  unfold selectPrompt
  rw [Nat.add_mod_right]

/-- C7: iteration `n + 1` of a run of `N` iterations contributes to the
trace, in order: the converse call, the unconditional per-call
`time.sleep(1)` (regardless of the call's outcome, since the equation holds
for every oracle), the progress report when due, and the inter-iteration
`time.sleep(2)` exactly when the iteration is not the last. -/
theorem C7_two_tier_pacing (oracle : Nat → Except String JVal)
    (N K n : Nat) (_h : n + 1 ≤ N) :
    (runUpTo oracle N K (n + 1)).events
      = (runUpTo oracle N K n).events
          ++ [Event.converseCall (n + 1) (mkMessages (selectPrompt (n + 1))),
              Event.sleep 1]
          ++ (if (n + 1) % K == 0
              then [Event.progress (n + 1)
                      ((runUpTo oracle N K (n + 1)).successful_runs)]
              else [])
          ++ (if n + 1 < N then [Event.sleep 2] else []) := by
  rw [runUpTo]
  exact loopBody_events oracle N K (n + 1) (runUpTo oracle N K n)

/-- Witness for C7 at a concrete oracle, `N = 2`, first iteration. -/
theorem C7_two_tier_pacing_witness :
    0 + 1 ≤ 2
      ∧ (runUpTo oracleErr 2 5 (0 + 1)).events
          = (runUpTo oracleErr 2 5 0).events
              ++ [Event.converseCall (0 + 1) (mkMessages (selectPrompt (0 + 1))),
                  Event.sleep 1]
              ++ (if (0 + 1) % 5 == 0
                  then [Event.progress (0 + 1)
                          ((runUpTo oracleErr 2 5 (0 + 1)).successful_runs)]
                  else [])
              ++ (if 0 + 1 < 2 then [Event.sleep 2] else []) :=
  ⟨by decide, C7_two_tier_pacing oracleErr 2 5 0 (by decide)⟩

/-- C8 counterexample: when the provisioning call raises, `main` produces no
RunSummary at all - the run ends on the abort path with the provisioning
error, not with a summary reflecting 0 attempted iterations. -/
theorem C8_abort_summary_counterexample :
    mainRun true (.error "quota") oracleOk = .error "quota" := rfl

/-- C8 (amended): if the provisioning call raises, the run aborts
immediately with that error, before any iteration, and no RunSummary is
produced (`mainRun` yields no final state at all). -/
theorem C8_abort_without_summary (e : String)
    (oracle : Nat → Except String JVal) :
    mainRun true (.error e) oracle = .error e
      ∧ (mainRun true (.error e) oracle).isOk = false := by
  exact ⟨rfl, rfl⟩

/-- C9 counterexample: classification is not "success iff non-`None`".
Line 103 is `if response:` - Python truthiness - so when the remote call
returns the empty dict `{}`, `converse` returns it non-`None`, yet the
iteration is counted as a failure. -/
theorem C9_nonNone_success_counterexample :
    converse (oracleEmptyDict 1) = some (JVal.obj [])
      ∧ (runUpTo oracleEmptyDict 1 5 1).successful_runs = 0
      ∧ (runUpTo oracleEmptyDict 1 5 1).failed_runs = 1 :=
  ⟨rfl, rfl, rfl⟩

/-- C9 (amended): an iteration is counted as a success exactly when the
value `converse` returned is truthy (line 103 `if response:`): non-`None`
and itself truthy.  A `None` return, or a falsy non-`None` response such as
`{}`, is the non-exception failure condition.  A truthy response parsing
only to the sentinel text (for example a nonempty dict without the expected
fields) still counts as a success. -/
theorem C9_success_iff_truthy (oracle : Nat → Except String JVal)
    (N K n : Nat) :
    ((runUpTo oracle N K (n + 1)).successful_runs
        = (runUpTo oracle N K n).successful_runs + 1
      ↔ py_truthy_opt (converse (oracle (n + 1))) = true)
    ∧ ((runUpTo oracle N K (n + 1)).failed_runs
        = (runUpTo oracle N K n).failed_runs + 1
      ↔ py_truthy_opt (converse (oracle (n + 1))) = false)
    ∧ py_truthy_opt none = false
    ∧ converse (.ok noTextResponse) = some noTextResponse
    ∧ parse_converse_response noTextResponse
        = .ok (JVal.str "No text response found")
    ∧ py_truthy_opt (converse (.ok noTextResponse)) = true := by
  have h := loopBody_counters oracle N K (n + 1) (runUpTo oracle N K n)
  refine ⟨?_, ?_, rfl, rfl, rfl, rfl⟩
  · rw [runUpTo, h.1]
    by_cases hs : py_truthy_opt (converse (oracle (n + 1))) = true <;>
      simp [hs]
  · rw [runUpTo, h.2]
    by_cases hs : py_truthy_opt (converse (oracle (n + 1))) = true <;>
      simp [hs]

/-- C10: when provisioning succeeds but the response lacks the
`inferenceProfileArn` key, the subscript on source line 64 raises an
uncaught `KeyError` that aborts the run before any iteration, exactly like a
provisioning rejection. -/
theorem C10_missing_arn_aborts (oracle : Nat → Except String JVal)
    (kvs : List (String × JVal))
    (h : lookupKey kvs "inferenceProfileArn" = none) :
    mainRun true (.ok (JVal.obj kvs)) oracle = .error "KeyError" := by
  unfold mainRun create_shared_profile create_inference_profile pyGet py_index
  simp [h]

/-- Witness for C10 at the concrete empty provisioning response. -/
theorem C10_missing_arn_aborts_witness :
    lookupKey [] "inferenceProfileArn" = none
      ∧ mainRun true (.ok (JVal.obj [])) oracleOk = .error "KeyError" :=
  ⟨rfl, C10_missing_arn_aborts oracleOk [] rfl⟩
